import Mathlib

/-!
Shallow embedding of `src/manager.py`, the plugin runtime of the
Media-Manager-n8n-Node repository: tool discovery, per-tool virtual
environment provisioning, orphan cleanup, subprocess dispatch and the
command-line router.

Modelling conventions:
* File-system state (`Fs`) is the pair of directory-name listings under the
  two managed roots (`subcommands_envs`, `subcommands_tools`); a root that
  does not exist is modelled as an empty listing.
* External effects are modelled by explicit outcome parameters: module
  loading by a `load` oracle, `python -m venv` by `venvOk`, `pip install` by
  `pipOk`, the child process by a `ChildOutcome` value, and the CLI input
  heuristics by `isfile` / `parseArg` / `parseFile` oracles.
* We model the POSIX branch of the platform checks (`sys.platform` is not
  `win32`).
* Text printed by Python `print(s)` to standard output is modelled as the
  string `s ++ "\n"`; text printed to standard error is modelled as the list
  of the printed payload strings (one list entry per `print` call).
  Provisioning progress logs are not tracked.
-/

/-- Result of executing a candidate module file to read its declared
attributes (manager.py lines 47-56): either the extracted metadata
(`INPUT_SCHEMA` and `REQUIRES`, each defaulting to `[]` when the attribute
is absent), or the message of the exception raised while loading.  Schema
entries are opaque presentation strings, never inspected by the runtime. -/
inductive LoadResult where
  | ok (input_schema : List String) (requires : List String)
  | err (msg : String)
deriving DecidableEq

/-- Registry entry produced by discovery (manager.py lines 53-59): either
the metadata dict `{"input_schema": ..., "requires": ...}` or the failure
dict `{"error": ...}`. -/
inductive Descriptor where
  | meta (input_schema : List String) (requires : List String)
  | loadError (msg : String)
deriving DecidableEq

/-- Directory of tool entry points (manager.py line 11); paths are modelled
relative to `BASE_DIR`. -/
def SUBCOMMANDS_DIR : String := "subcommands"

/-- Root under which per-tool virtual environments live (manager.py line 12). -/
def SUBCOMMAND_ENVS_DIR : String := "subcommands_envs"

/-- Root under which per-tool persistent storage folders live (manager.py
line 13). -/
def SUBCOMMAND_TOOLS_DIR : String := "subcommands_tools"

/-- Embeds `os.path.join` for the POSIX branch. -/
def joinPath (a b : String) : String := a ++ "/" ++ b

/-- Embeds `get_python_executable` (manager.py lines 16-22), POSIX branch. -/
def get_python_executable (env_path : String) : String :=
  joinPath (joinPath env_path "bin") "python"

/-- Embeds Python `str.endswith` on character lists (kernel-reducible,
unlike `String.endsWith`). -/
def strEndsWith (s t : String) : Bool :=
  s.data.reverse.take t.data.length == t.data.reverse

/-- Embeds Python `str.startswith` on character lists. -/
def strStartsWith (s t : String) : Bool :=
  s.data.take t.data.length == t.data

/-- Embeds Python `str.lower` on character lists. -/
def strToLower (s : String) : String :=
  String.mk (s.data.map Char.toLower)

/-- Embeds the Python slice `fname[:-3]` of manager.py line 45. -/
def dropExt (fname : String) : String :=
  String.mk (fname.data.take (fname.data.length - 3))

/-- Candidate filter of discovery (manager.py line 44): a `.py` file whose
name does not start with an underscore. -/
def isEntryPoint (fname : String) : Bool :=
  strEndsWith fname ".py" && !strStartsWith fname "_"

/-- Descriptor stored for one entry point: the metadata on success, or the
dict `{"error": "Error loading: ..."}` on failure (manager.py lines 53-59). -/
def mkDescriptor : LoadResult → Descriptor
  | .ok s r => .meta s r
  | .err e => .loadError ("Error loading: " ++ e)

/-- Embeds the `for fname in os.listdir(SUBCOMMANDS_DIR)` loop of
`discover_subcommands` (manager.py lines 43-59): each qualifying file is
loaded in its own `try`, and a failure is recorded on that entry alone. -/
def discoverLoop (load : String → String → LoadResult) :
    List String → List (String × Descriptor)
  | [] => []
  | fname :: rest =>
    if isEntryPoint fname then
      (dropExt fname, mkDescriptor (load (dropExt fname) fname)) ::
        discoverLoop load rest
    else discoverLoop load rest

/-- Embeds `discover_subcommands` (manager.py lines 32-61).  `dirExists`
models `os.path.exists(SUBCOMMANDS_DIR)`; when the directory is missing the
code creates it empty and returns the empty dict.  `listing` models
`os.listdir` (its entries are pairwise distinct), and `load` models the
`importlib` module execution together with the two `getattr` reads. -/
def discover_subcommands (dirExists : Bool) (listing : List String)
    (load : String → String → LoadResult) : List (String × Descriptor) :=
  if dirExists then discoverLoop load listing else []

/-- File-system state of the two managed roots: the directory names under
`SUBCOMMAND_ENVS_DIR` and under `SUBCOMMAND_TOOLS_DIR`. -/
structure Fs where
  envDirs : List String
  toolDirs : List String
deriving DecidableEq

/-- Embeds one cleanup loop of `cleanup_orphaned_files` (manager.py lines
113-119 and 121-128): every listed directory whose name is not among the
current subcommand names is removed via `shutil.rmtree(...,
ignore_errors=True)` (modelled as a successful removal) and counted. -/
def cleanupDir (subcommand_names : List String) : List String → List String × Nat
  | [] => ([], 0)
  | d :: rest =>
    let r := cleanupDir subcommand_names rest
    if subcommand_names.contains d then (d :: r.1, r.2) else (r.1, r.2 + 1)

/-- Embeds `cleanup_orphaned_files` (manager.py lines 104-131): both roots
are swept and `cleaned_count` accumulates across them; the final value of
`cleaned_count` is returned alongside the new state (in the source it is
surfaced through the standard-error log). -/
def cleanup_orphaned_files (subcommand_names : List String) (fs : Fs) :
    Fs × Nat :=
  let e := cleanupDir subcommand_names fs.envDirs
  let t := cleanupDir subcommand_names fs.toolDirs
  ({ envDirs := e.1, toolDirs := t.1 }, e.2 + t.2)

/-- Embeds `create_environment` (manager.py lines 88-102) at the level of
the envs root listing: `env_path = os.path.join(SUBCOMMAND_ENVS_DIR, name)`
exists iff `name` is listed under the envs root.  `venvOk` models the
outcome of `python -m venv`; on failure the listing is unchanged and the
call returns `False`. -/
def create_environment (envDirs : List String) (name : String)
    (venvOk : Bool) : List String × Bool :=
  if envDirs.contains name then (envDirs, true)
  else if venvOk then (name :: envDirs, true)
  else (envDirs, false)

/-- Embeds `install_dependencies` (manager.py lines 63-86): immediate
success on an empty package list, otherwise the outcome of the `pip
install --upgrade` subprocess (`pipOk` covers both the non-zero-exit and
the missing-pip failure branches, which both return `False`). -/
def install_dependencies (packages : List String) (pipOk : Bool) : Bool :=
  if packages.isEmpty then true else pipOk

/-- Payload handed to `run_subcommand` as `input_data` (manager.py lines
226-248): the default empty object, a successfully parsed JSON value
(represented by its serialization), or the `{"file_path": arg}` wrapper. -/
inductive Payload where
  | emptyObj
  | parsed (j : String)
  | filePathWrap (p : String)
deriving DecidableEq

/-- Embeds `json.dumps(input_data)` (manager.py line 168) on the payload
shapes produced by `main`; a parsed payload is represented by its canonical
serialization. -/
def dumps : Payload → String
  | .emptyObj => "\x7b\x7d"
  | .parsed j => j
  | .filePathWrap p => "\x7b\"file_path\": \"" ++ p ++ "\"\x7d"

/-- Record of the one `subprocess.run` invocation of the dispatcher
(manager.py lines 173-180): the resolved interpreter, the script path, the
serialized payload passed as the third `argv` element, the data written by
the dispatcher to the child process standard input (`none`: the
`subprocess.run` call passes no `input` and writes nothing), and the
`SUBCOMMAND_TOOL_PATH` environment value. -/
structure ChildSpawn where
  exe : String
  script : String
  argvPayload : String
  stdinData : Option String
  toolPathEnv : String
deriving DecidableEq

/-- Outcome of the child process: exit 0 with captured output streams,
non-zero exit (raising `CalledProcessError` under `check=True`), or a
missing interpreter executable (`FileNotFoundError`). -/
inductive ChildOutcome where
  | ok (stdout stderr : String)
  | fail (stdout stderr : String)
  | noExe
deriving DecidableEq

/-- Observable result of one `run_subcommand` call: the resulting
file-system state, whether `create_environment` and `install_dependencies`
were called, the `subprocess.run` invocation (if reached), and the text
emitted on the manager's standard output and standard error. -/
structure RunOutput where
  fs : Fs
  createEnvCalled : Bool
  installCalled : Bool
  spawn : Option ChildSpawn
  stdoutData : String
  stderrLines : List String
deriving DecidableEq

/-- Embeds the dict lookup `subcommands[name]` over the snapshot (dict keys
are unique, so the first association-list hit is the entry). -/
def lookupSub (registry : List (String × Descriptor)) (name : String) :
    Option Descriptor :=
  (registry.find? (fun p => p.1 == name)).map Prod.snd

/-- Message of manager.py line 140. -/
def notFoundMsg (name : String) : String :=
  "ERROR: Subcommand " ++ name ++ " not found or could not be loaded."

/-- Banner of manager.py line 171. -/
def runBanner (name : String) : String :=
  "\n--- Running Subcommand: " ++ name ++ " ---"

/-- Message of manager.py line 190. -/
def childFailMsg (name : String) : String :=
  "ERROR: Subcommand " ++ name ++ " failed with an error."

/-- Message of manager.py line 194. -/
def exeMissingMsg (python_exe : String) : String :=
  "ERROR: Python executable not found at " ++ python_exe ++ "."

/-- Output of the early `return` of manager.py lines 139-141: no
provisioning, no subprocess, state untouched. -/
def notFoundOutput (fs : Fs) (name : String) : RunOutput :=
  { fs := fs, createEnvCalled := false, installCalled := false,
    spawn := none, stdoutData := "", stderrLines := [notFoundMsg name] }

/-- Output of the `return` of manager.py line 151 (environment setup
failed): no subprocess is launched. -/
def provisionAbortOutput (fs : Fs) (installCalled : Bool) : RunOutput :=
  { fs := fs, createEnvCalled := true, installCalled := installCalled,
    spawn := none, stdoutData := "", stderrLines := [] }

/-- Embeds manager.py lines 157-194: storage-directory preparation
(`os.makedirs` when absent), serialization of the payload, the
`subprocess.run([python_exe, script, input_json], ...)` call — note the
payload travels in `argv` and no `input=` is passed, so `stdinData = none` —
and the relay of the captured streams (`print(process.stdout)` appends a
newline; on `CalledProcessError` both captured streams go to standard
error; on `FileNotFoundError` no child ran). -/
def execSubcommand (python_exe : String) (child : ChildOutcome) (fs : Fs)
    (cE iN : Bool) (name : String) (input_data : Payload) : RunOutput :=
  let toolPath := joinPath SUBCOMMAND_TOOLS_DIR name
  let fs2 : Fs :=
    if fs.toolDirs.contains name then fs
    else { fs with toolDirs := name :: fs.toolDirs }
  let sp : ChildSpawn :=
    { exe := python_exe, script := joinPath SUBCOMMANDS_DIR (name ++ ".py"),
      argvPayload := dumps input_data, stdinData := none,
      toolPathEnv := toolPath }
  match child with
  | .ok out err =>
    { fs := fs2, createEnvCalled := cE, installCalled := iN,
      spawn := some sp, stdoutData := out ++ "\n",
      stderrLines := runBanner name :: (if err == "" then [] else [err]) }
  | .fail out err =>
    { fs := fs2, createEnvCalled := cE, installCalled := iN,
      spawn := some sp, stdoutData := "",
      stderrLines := [runBanner name, childFailMsg name, out, err] }
  | .noExe =>
    { fs := fs2, createEnvCalled := cE, installCalled := iN,
      spawn := some sp, stdoutData := "",
      stderrLines := [runBanner name, exeMissingMsg python_exe] }

/-- Embeds manager.py lines 143-155 once the descriptor resolved to
metadata: a non-empty `requires` list triggers `create_environment` and
then (only on its success) `install_dependencies`, aborting the dispatch on
the first failure; an empty list selects `sys.executable` directly. -/
def run_resolved (sysExecutable : String) (venvOk pipOk : Bool)
    (child : ChildOutcome) (fs : Fs) (name : String) (input_data : Payload)
    (requires : List String) : RunOutput :=
  if requires.isEmpty then
    execSubcommand sysExecutable child fs false false name input_data
  else
    let c := create_environment fs.envDirs name venvOk
    let fs1 : Fs := { fs with envDirs := c.1 }
    if c.2 then
      if install_dependencies requires pipOk then
        execSubcommand
          (get_python_executable (joinPath SUBCOMMAND_ENVS_DIR name))
          child fs1 true true name input_data
      else provisionAbortOutput fs1 true
    else provisionAbortOutput fs1 false

/-- Embeds `run_subcommand` (manager.py lines 133-194) against the fresh
registry snapshot `registry` (computed by `discover_subcommands` at line
138): an absent name, or one whose entry carries the `"error"` key, stops
at line 141 with no provisioning and no subprocess. -/
def run_subcommand (sysExecutable : String)
    (registry : List (String × Descriptor)) (venvOk pipOk : Bool)
    (child : ChildOutcome) (fs : Fs) (name : String)
    (input_data : Payload) : RunOutput :=
  match lookupSub registry name with
  | some (Descriptor.meta _ requires) =>
    run_resolved sysExecutable venvOk pipOk child fs name input_data requires
  | some (Descriptor.loadError _) => notFoundOutput fs name
  | none => notFoundOutput fs name

/-- Embeds the payload-resolution logic of the run branch of `main`
(manager.py lines 226-248).  `arg` is `sys.argv[2]` when present.
`parseArg` models `json.loads` on the argument (`none`: raises
`JSONDecodeError`); `isfile` models `os.path.isfile`; `parseFile` models
opening and parsing the file (`none`: any exception there).  The result is
`none` exactly on the early `return` of line 243 (unreadable `.json`
file); otherwise the payload handed to `run_subcommand`. -/
def resolve_input (isfile : String → Bool)
    (parseArg parseFile : String → Option String) :
    Option String → Option Payload
  | none => some Payload.emptyObj
  | some a =>
    match parseArg a with
    | some j => some (Payload.parsed j)
    | none =>
      if isfile a && strEndsWith (strToLower a) ".json" then
        match parseFile a with
        | some j => some (Payload.parsed j)
        | none => none
      else some (Payload.filePathWrap a)

/-- Record of one execution of the `update` branch of `main` (manager.py
lines 211-221): the resulting file-system state, the final
`cleaned_count` of the reclamation pass, and the names for which the
provisioning branch (`create_environment`, then on success
`install_dependencies`) was entered. -/
structure UpdateOutput where
  fs : Fs
  cleaned : Nat
  provisionAttempts : List String
deriving DecidableEq

/-- Embeds the `for name, data in subcommands.items()` loop of the update
branch (manager.py lines 216-220): the branch runs only when
`data.get("requires")` is truthy — an `"error"` entry has no `"requires"`
key and an empty list is falsy, so both are skipped;
`install_dependencies` (line 220) runs only when `create_environment`
succeeded, and its result is discarded. -/
def update_loop (venvOk : Bool) :
    List (String × Descriptor) → List String → List String × List String
  | [], envDirs => (envDirs, [])
  | (n, d) :: rest, envDirs =>
    match d with
    | .loadError _ => update_loop venvOk rest envDirs
    | .meta _ req =>
      if req.isEmpty then update_loop venvOk rest envDirs
      else
        let c := create_environment envDirs n venvOk
        let r := update_loop venvOk rest c.1
        (r.1, n :: r.2)

/-- Embeds the `update` branch of `main` (manager.py lines 211-221) against
the snapshot `registry` computed by `discover_subcommands` at line 213:
reclamation over `subcommands.keys()`, then provisioning of every entry
with a truthy `requires`. -/
def update_command (registry : List (String × Descriptor)) (venvOk : Bool)
    (fs : Fs) : UpdateOutput :=
  let names := registry.map Prod.fst
  let c := cleanup_orphaned_files names fs
  let l := update_loop venvOk registry c.1.envDirs
  { fs := { envDirs := l.1, toolDirs := c.1.toolDirs },
    cleaned := c.2, provisionAttempts := l.2 }

/-- Serialization of one registry entry for the `list` verb (manager.py
line 209). -/
def serializeDescriptor : Descriptor → String
  | .meta s r =>
    "\x7b\"input_schema\": [" ++ String.intercalate ", " s ++
      "], \"requires\": [" ++ String.intercalate ", " r ++ "]\x7d"
  | .loadError e => "\x7b\"error\": \"" ++ e ++ "\"\x7d"

/-- Embeds `json.dumps(subcommands)` for the `list` verb (manager.py line
209). -/
def serializeRegistry (registry : List (String × Descriptor)) : String :=
  "\x7b" ++ String.intercalate ", "
    (registry.map (fun p => "\"" ++ p.1 ++ "\": " ++ serializeDescriptor p.2))
    ++ "\x7d"

/-- Usage lines of manager.py lines 200-201. -/
def usageLines : List String :=
  ["Usage: python manager.py <command> [args...]",
   "Available commands: list, update, <subcommand_name> [json_input|file_path]"]

/-- Observable result of one full CLI invocation of `main` (manager.py
lines 197-253): the process exit code, the text on standard output and
standard error, the dispatch result when the run branch reached
`run_subcommand`, and the final file-system state.  `main` returns `None`
on every path and the script never calls `sys.exit`, so on every modelled
path the interpreter exits with code 0. -/
structure CliOutput where
  exitCode : Nat
  stdoutData : String
  stderrLines : List String
  run : Option RunOutput
  fs : Fs
deriving DecidableEq

/-- Message of manager.py line 242 (unreadable or unparseable `.json`
file). -/
def fileErrMsg (arg : String) : String :=
  "ERROR: Could not read or parse JSON file " ++ arg ++ "."

/-- Embeds `main` (manager.py lines 197-253); Lean reserves the name `main`, hence `managerMain`.  `args` is `sys.argv`;
`registry` is the snapshot produced by `discover_subcommands` wherever the
branch taken calls it (lines 207, 213 and — through `run_subcommand` —
line 138). -/
def managerMain (sysExecutable : String) (registry : List (String × Descriptor))
    (venvOk pipOk : Bool) (child : ChildOutcome) (isfile : String → Bool)
    (parseArg parseFile : String → Option String) (fs : Fs)
    (args : List String) : CliOutput :=
  match args with
  | [] =>
    { exitCode := 0, stdoutData := "", stderrLines := usageLines,
      run := none, fs := fs }
  | [_] =>
    { exitCode := 0, stdoutData := "", stderrLines := usageLines,
      run := none, fs := fs }
  | _ :: command :: rest =>
    if command == "list" then
      { exitCode := 0, stdoutData := serializeRegistry registry ++ "\n",
        stderrLines := [], run := none, fs := fs }
    else if command == "update" then
      let u := update_command registry venvOk fs
      { exitCode := 0, stdoutData := "", stderrLines := [],
        run := none, fs := u.fs }
    else
      match resolve_input isfile parseArg parseFile rest.head? with
      | none =>
        { exitCode := 0, stdoutData := "",
          stderrLines := [fileErrMsg (rest.headD "")], run := none, fs := fs }
      | some payload =>
        let r := run_subcommand sysExecutable registry venvOk pipOk child fs
          command payload
        { exitCode := 0, stdoutData := r.stdoutData,
          stderrLines := r.stderrLines, run := some r, fs := r.fs }

/-! ### Helper lemmas -/

theorem discoverLoop_keys (load : String → String → LoadResult)
    (l : List String) :
    (discoverLoop load l).map Prod.fst
      = (l.filter isEntryPoint).map dropExt := by
  induction l with
  | nil => rfl
  | cons f rest ih =>
    cases h : isEntryPoint f <;>
      simp [discoverLoop, h, List.filter_cons, ih]

theorem discoverLoop_err_mem (load : String → String → LoadResult)
    (l : List String) (f m : String) (hf : f ∈ l)
    (he : isEntryPoint f = true)
    (hl : load (dropExt f) f = LoadResult.err m) :
    (dropExt f, Descriptor.loadError ("Error loading: " ++ m))
      ∈ discoverLoop load l := by
  induction l with
  | nil => cases hf
  | cons g rest ih =>
    rcases List.mem_cons.mp hf with rfl | hmem
    · simp [discoverLoop, he, mkDescriptor, hl]
    · cases h : isEntryPoint g <;>
        simp [discoverLoop, h, ih hmem]

theorem cleanupDir_fst (ns l : List String) :
    (cleanupDir ns l).1 = l.filter (fun d => ns.contains d) := by
  induction l with
  | nil => rfl
  | cons d rest ih =>
    by_cases h : d ∈ ns <;>
      simp [cleanupDir, h, List.filter_cons, ih]

theorem cleanupDir_snd (ns l : List String) :
    (cleanupDir ns l).2 = (l.filter (fun d => !ns.contains d)).length := by
  induction l with
  | nil => rfl
  | cons d rest ih =>
    by_cases h : d ∈ ns <;>
      simp [cleanupDir, h, List.filter_cons, ih]

theorem filter_contains_stable (ns l : List String) :
    (l.filter (fun d => ns.contains d)).filter (fun d => ns.contains d)
      = l.filter (fun d => ns.contains d) :=
  List.filter_eq_self.mpr fun _ ha => (List.mem_filter.mp ha).2

theorem filter_not_contains_of_filter (ns l : List String) :
    (l.filter (fun d => ns.contains d)).filter (fun d => !ns.contains d)
      = [] := by
  rw [List.filter_eq_nil_iff]
  intro a ha
  simp_all [List.mem_filter]

theorem create_environment_mono (envDirs : List String) (n : String)
    (v : Bool) (d : String) (hd : d ∈ envDirs) :
    d ∈ (create_environment envDirs n v).1 := by
  unfold create_environment
  split
  · exact hd
  · split
    · exact List.mem_cons_of_mem _ hd
    · exact hd

theorem execSubcommand_spawn (pe : String) (child : ChildOutcome) (fs : Fs)
    (cE iN : Bool) (name : String) (p : Payload) :
    (execSubcommand pe child fs cE iN name p).spawn
      = some { exe := pe, script := joinPath SUBCOMMANDS_DIR (name ++ ".py"),
               argvPayload := dumps p, stdinData := none,
               toolPathEnv := joinPath SUBCOMMAND_TOOLS_DIR name } := by
  cases child <;> rfl

theorem execSubcommand_createEnvCalled (pe : String) (child : ChildOutcome)
    (fs : Fs) (cE iN : Bool) (name : String) (p : Payload) :
    (execSubcommand pe child fs cE iN name p).createEnvCalled = cE := by
  cases child <;> rfl

theorem execSubcommand_envDirs (pe : String) (child : ChildOutcome) (fs : Fs)
    (cE iN : Bool) (name : String) (p : Payload) :
    (execSubcommand pe child fs cE iN name p).fs.envDirs = fs.envDirs := by
  cases child <;> simp only [execSubcommand] <;> split <;> rfl

theorem execSubcommand_ok_stdout (pe out err : String) (fs : Fs)
    (cE iN : Bool) (name : String) (p : Payload) :
    (execSubcommand pe (ChildOutcome.ok out err) fs cE iN name p).stdoutData
      = out ++ "\n" := by
  rfl

theorem execSubcommand_fail_streams (pe out err : String) (fs : Fs)
    (cE iN : Bool) (name : String) (p : Payload) :
    (execSubcommand pe (ChildOutcome.fail out err) fs cE iN name p).stdoutData
        = "" ∧
      err ∈ (execSubcommand pe (ChildOutcome.fail out err) fs cE iN
        name p).stderrLines := by
  exact ⟨rfl, by simp [execSubcommand]⟩

theorem run_subcommand_notFound (sysExe : String)
    (registry : List (String × Descriptor)) (venvOk pipOk : Bool)
    (child : ChildOutcome) (fs : Fs) (name : String) (payload : Payload)
    (h : lookupSub registry name = none ∨
      ∃ m, lookupSub registry name = some (Descriptor.loadError m)) :
    run_subcommand sysExe registry venvOk pipOk child fs name payload
      = notFoundOutput fs name := by
  rcases h with h | ⟨m, h⟩ <;> unfold run_subcommand <;> rw [h]

theorem run_subcommand_meta (sysExe : String)
    (registry : List (String × Descriptor)) (venvOk pipOk : Bool)
    (child : ChildOutcome) (fs : Fs) (name : String) (payload : Payload)
    (s req : List String)
    (h : lookupSub registry name = some (Descriptor.meta s req)) :
    run_subcommand sysExe registry venvOk pipOk child fs name payload
      = run_resolved sysExe venvOk pipOk child fs name payload req := by
  unfold run_subcommand
  rw [h]

theorem run_resolved_spawn_some (sysExe : String) (venvOk pipOk : Bool)
    (child : ChildOutcome) (fs : Fs) (name : String) (payload : Payload)
    (req : List String)
    (h : (run_resolved sysExe venvOk pipOk child fs name
      payload req).spawn.isSome) :
    ∃ pe fs1 cE iN,
      run_resolved sysExe venvOk pipOk child fs name payload req
        = execSubcommand pe child fs1 cE iN name payload := by
  by_cases hreq : req.isEmpty = true
  · exact ⟨sysExe, fs, false, false, by simp [run_resolved, hreq]⟩
  · cases hc : (create_environment fs.envDirs name venvOk).2 with
    | false =>
      exfalso
      simp [run_resolved, hreq, hc, provisionAbortOutput] at h
    | true =>
      cases hin : install_dependencies req pipOk with
      | false =>
        exfalso
        simp [run_resolved, hreq, hc, hin, provisionAbortOutput] at h
      | true =>
        refine ⟨get_python_executable (joinPath SUBCOMMAND_ENVS_DIR name),
          { fs with envDirs := (create_environment fs.envDirs name venvOk).1 },
          true, true, ?_⟩
        simp [run_resolved, hreq, hc, hin]

theorem run_subcommand_spawn_some (sysExe : String)
    (registry : List (String × Descriptor)) (venvOk pipOk : Bool)
    (child : ChildOutcome) (fs : Fs) (name : String) (payload : Payload)
    (h : (run_subcommand sysExe registry venvOk pipOk child fs name
      payload).spawn.isSome) :
    ∃ pe fs1 cE iN,
      run_subcommand sysExe registry venvOk pipOk child fs name payload
        = execSubcommand pe child fs1 cE iN name payload := by
  cases hl : lookupSub registry name with
  | none =>
    rw [run_subcommand_notFound sysExe registry venvOk pipOk child fs name
      payload (Or.inl hl)] at h
    simp [notFoundOutput] at h
  | some d =>
    cases d with
    | loadError m =>
      rw [run_subcommand_notFound sysExe registry venvOk pipOk child fs name
        payload (Or.inr ⟨m, hl⟩)] at h
      simp [notFoundOutput] at h
    | meta s req =>
      rw [run_subcommand_meta sysExe registry venvOk pipOk child fs name
        payload s req hl] at h ⊢
      exact run_resolved_spawn_some sysExe venvOk pipOk child fs name
        payload req h

theorem managerMain_exitCode (sysExe : String)
    (registry : List (String × Descriptor)) (venvOk pipOk : Bool)
    (child : ChildOutcome) (isfile : String → Bool)
    (pa pf : String → Option String) (fs : Fs) (args : List String) :
    (managerMain sysExe registry venvOk pipOk child isfile pa pf fs
      args).exitCode = 0 := by
  match args with
  | [] => rfl
  | [_] => rfl
  | _ :: command :: rest =>
    unfold managerMain
    by_cases h1 : (command == "list") = true
    · simp [h1]
    · by_cases h2 : (command == "update") = true
      · simp [h1, h2]
      · cases hres : resolve_input isfile pa pf rest.head? <;>
          simp [h1, h2, hres]

theorem managerMain_run_char (sysExe : String)
    (registry : List (String × Descriptor)) (venvOk pipOk : Bool)
    (child : ChildOutcome) (isfile : String → Bool)
    (pa pf : String → Option String) (fs : Fs) (args : List String)
    (r : RunOutput)
    (h : (managerMain sysExe registry venvOk pipOk child isfile pa pf fs
      args).run = some r) :
    (managerMain sysExe registry venvOk pipOk child isfile pa pf fs
        args).stdoutData = r.stdoutData ∧
      (managerMain sysExe registry venvOk pipOk child isfile pa pf fs
        args).stderrLines = r.stderrLines ∧
      ∃ name payload,
        r = run_subcommand sysExe registry venvOk pipOk child fs name
          payload := by
  match args with
  | [] => simp [managerMain] at h
  | [_] => simp [managerMain] at h
  | _ :: command :: rest =>
    unfold managerMain at h ⊢
    by_cases h1 : (command == "list") = true
    · simp [h1] at h
    · by_cases h2 : (command == "update") = true
      · simp [h1, h2] at h
      · cases hres : resolve_input isfile pa pf rest.head? with
        | none => simp [h1, h2, hres] at h
        | some payload =>
          simp only [h1, h2, hres, Bool.false_eq_true, if_false,
            Option.some.injEq] at h
          refine ⟨?_, ?_, command, payload, ?_⟩ <;>
            simp [h1, h2, hres, ← h]

/-! ### Claim theorems -/

/-- C3: for every candidate listing, `discover_subcommands` returns exactly
one descriptor per non-reserved entry point (keys are the `.py` files not
starting with an underscore, minus the extension), the key set and the
count are independent of how many entries fail to load, and an extraction
failure is recorded as a load-error descriptor on that entry alone. -/
theorem C3_discover_isolation (listing : List String)
    (load load' : String → String → LoadResult) :
    (discover_subcommands true listing load).map Prod.fst
        = (listing.filter isEntryPoint).map dropExt ∧
      (discover_subcommands true listing load).length
        = (listing.filter isEntryPoint).length ∧
      (discover_subcommands true listing load).map Prod.fst
        = (discover_subcommands true listing load').map Prod.fst ∧
      ∀ f ∈ listing, isEntryPoint f = true →
        ∀ m, load (dropExt f) f = LoadResult.err m →
          (dropExt f, Descriptor.loadError ("Error loading: " ++ m))
            ∈ discover_subcommands true listing load := by
  refine ⟨discoverLoop_keys load listing, ?_, ?_, ?_⟩
  · have h := congrArg List.length (discoverLoop_keys load listing)
    simpa using h
  · show (discoverLoop load listing).map Prod.fst
      = (discoverLoop load' listing).map Prod.fst
    rw [discoverLoop_keys, discoverLoop_keys]
  · intro f hf he m hm
    exact discoverLoop_err_mem load listing f m hf he hm

/-- Witness for C3 at a concrete tool set: two valid entry points, one
loading and one broken, one reserved file and one non-Python file. -/
theorem C3_witness :
    (discover_subcommands true ["good.py", "bad.py", "_p.py", "notes.txt"]
        (fun _ f => if f == "bad.py" then LoadResult.err "boom"
          else LoadResult.ok [] [])).map Prod.fst = ["good", "bad"] ∧
    ("bad", Descriptor.loadError ("Error loading: " ++ "boom"))
      ∈ discover_subcommands true ["good.py", "bad.py", "_p.py", "notes.txt"]
        (fun _ f => if f == "bad.py" then LoadResult.err "boom"
          else LoadResult.ok [] []) := by
  obtain ⟨hk, _, _, herr⟩ := C3_discover_isolation
    ["good.py", "bad.py", "_p.py", "notes.txt"]
    (fun _ f => if f == "bad.py" then LoadResult.err "boom"
      else LoadResult.ok [] [])
    (fun _ _ => LoadResult.ok [] [])
  refine ⟨hk.trans (by decide), ?_⟩
  exact herr "bad.py" (by decide) (by decide) "boom" (by decide)

/-- C4: `cleanup_orphaned_files` removes from each root exactly the
directories whose names are outside the current-name set (a pure set
difference), its `cleaned_count` equals the number of removed directories,
and a second run on the resulting state removes nothing and counts zero. -/
theorem C4_cleanup_set_difference (names : List String) (fs : Fs) :
    (cleanup_orphaned_files names fs).1.envDirs
        = fs.envDirs.filter (fun d => names.contains d) ∧
      (cleanup_orphaned_files names fs).1.toolDirs
        = fs.toolDirs.filter (fun d => names.contains d) ∧
      (cleanup_orphaned_files names fs).2
        = (fs.envDirs.filter (fun d => !names.contains d)).length
          + (fs.toolDirs.filter (fun d => !names.contains d)).length ∧
      cleanup_orphaned_files names (cleanup_orphaned_files names fs).1
        = ((cleanup_orphaned_files names fs).1, 0) := by
  refine ⟨?_, ?_, ?_, ?_⟩ <;>
    simp [cleanup_orphaned_files, cleanupDir_fst, cleanupDir_snd,
      filter_contains_stable, filter_not_contains_of_filter]

/-- C8: `create_environment` succeeds immediately without side effects when
the sandbox root already exists; once a call succeeded, a repeated call
leaves the state unchanged and succeeds; calling it twice in sequence
yields the same on-disk state as calling it once. -/
theorem C8_create_environment_idempotent (envDirs : List String)
    (name : String) (venvOk venvOk2 : Bool) :
    (envDirs.contains name = true →
        create_environment envDirs name venvOk = (envDirs, true)) ∧
      ((create_environment envDirs name venvOk).2 = true →
        create_environment (create_environment envDirs name venvOk).1 name
          venvOk2 = ((create_environment envDirs name venvOk).1, true)) ∧
      (create_environment (create_environment envDirs name venvOk).1 name
          venvOk).1 = (create_environment envDirs name venvOk).1 := by
  refine ⟨?_, ?_, ?_⟩
  · intro h
    have hm : name ∈ envDirs := by simpa using h
    simp [create_environment, hm]
  · intro h
    by_cases hc : name ∈ envDirs
    · simp [create_environment, hc]
    · cases hv : venvOk
      · simp [create_environment, hc, hv] at h
      · simp [create_environment, hc, hv]
  · by_cases hc : name ∈ envDirs
    · simp [create_environment, hc]
    · cases hv : venvOk <;> simp [create_environment, hc, hv]

/-- Witness for C8: an existing sandbox is reused as-is even when the venv
facility would fail, and a successful creation followed by a repeat call
leaves the state fixed. -/
theorem C8_witness :
    create_environment ["tool"] "tool" false = (["tool"], true) ∧
      create_environment (create_environment [] "tool" true).1 "tool" false
        = ((create_environment [] "tool" true).1, true) := by
  obtain ⟨h1, _, _⟩ :=
    C8_create_environment_idempotent ["tool"] "tool" false false
  obtain ⟨_, h2, _⟩ :=
    C8_create_environment_idempotent [] "tool" true false
  exact ⟨h1 (by decide), h2 (by decide)⟩

/-- C6: a name that is absent from the fresh snapshot, or whose descriptor
carries a load error, makes `run_subcommand` stop with the not-found error:
no subprocess is invoked, no environment is created, no installation is
attempted, and the file system is untouched. -/
theorem C6_unknown_or_broken_not_dispatched (sysExe : String)
    (registry : List (String × Descriptor)) (venvOk pipOk : Bool)
    (child : ChildOutcome) (fs : Fs) (name : String) (payload : Payload)
    (h : lookupSub registry name = none ∨
      ∃ m, lookupSub registry name = some (Descriptor.loadError m)) :
    (run_subcommand sysExe registry venvOk pipOk child fs name
        payload).spawn = none ∧
      (run_subcommand sysExe registry venvOk pipOk child fs name
        payload).createEnvCalled = false ∧
      (run_subcommand sysExe registry venvOk pipOk child fs name
        payload).installCalled = false ∧
      (run_subcommand sysExe registry venvOk pipOk child fs name
        payload).fs = fs := by
  rw [run_subcommand_notFound sysExe registry venvOk pipOk child fs name
    payload h]
  exact ⟨rfl, rfl, rfl, rfl⟩

/-- Witness for C6: dispatch of the unknown name `ghost` against a registry
holding only a broken tool. -/
theorem C6_witness :
    (run_subcommand "python3" [("tool", Descriptor.loadError "boom")] true
        true ChildOutcome.noExe ⟨[], []⟩ "ghost" Payload.emptyObj).spawn
        = none ∧
      (run_subcommand "python3" [("tool", Descriptor.loadError "boom")] true
        true ChildOutcome.noExe ⟨[], []⟩ "ghost"
        Payload.emptyObj).createEnvCalled = false ∧
      (run_subcommand "python3" [("tool", Descriptor.loadError "boom")] true
        true ChildOutcome.noExe ⟨[], []⟩ "ghost"
        Payload.emptyObj).installCalled = false ∧
      (run_subcommand "python3" [("tool", Descriptor.loadError "boom")] true
        true ChildOutcome.noExe ⟨[], []⟩ "ghost" Payload.emptyObj).fs
        = ⟨[], []⟩ :=
  C6_unknown_or_broken_not_dispatched "python3"
    [("tool", Descriptor.loadError "boom")] true true ChildOutcome.noExe
    ⟨[], []⟩ "ghost" Payload.emptyObj (Or.inl (by decide))

/-- C7: a tool whose declared dependency list is empty is dispatched under
the host interpreter (`sys.executable`): `create_environment` is never
called, the sandbox root listing is unchanged, and the subprocess runs the
host interpreter on the tool's entry point. -/
theorem C7_no_sandbox_for_dependency_free (sysExe : String)
    (registry : List (String × Descriptor)) (venvOk pipOk : Bool)
    (child : ChildOutcome) (fs : Fs) (name : String) (payload : Payload)
    (schema : List String)
    (h : lookupSub registry name = some (Descriptor.meta schema [])) :
    (run_subcommand sysExe registry venvOk pipOk child fs name
        payload).createEnvCalled = false ∧
      (run_subcommand sysExe registry venvOk pipOk child fs name
        payload).fs.envDirs = fs.envDirs ∧
      (run_subcommand sysExe registry venvOk pipOk child fs name
        payload).spawn
        = some { exe := sysExe,
                 script := joinPath SUBCOMMANDS_DIR (name ++ ".py"),
                 argvPayload := dumps payload, stdinData := none,
                 toolPathEnv := joinPath SUBCOMMAND_TOOLS_DIR name } := by
  rw [run_subcommand_meta sysExe registry venvOk pipOk child fs name payload
    schema [] h]
  have hres : run_resolved sysExe venvOk pipOk child fs name payload []
      = execSubcommand sysExe child fs false false name payload := rfl
  rw [hres]
  exact ⟨execSubcommand_createEnvCalled sysExe child fs false false name
      payload,
    execSubcommand_envDirs sysExe child fs false false name payload,
    execSubcommand_spawn sysExe child fs false false name payload⟩

/-- Witness for C7: a dependency-free tool dispatched on a state that
already holds an unrelated sandbox. -/
theorem C7_witness :
    (run_subcommand "python3" [("echo", Descriptor.meta [] [])] true true
        (ChildOutcome.ok "done" "") ⟨["other"], []⟩ "echo"
        Payload.emptyObj).createEnvCalled = false ∧
      (run_subcommand "python3" [("echo", Descriptor.meta [] [])] true true
        (ChildOutcome.ok "done" "") ⟨["other"], []⟩ "echo"
        Payload.emptyObj).fs.envDirs = (Fs.mk ["other"] []).envDirs ∧
      (run_subcommand "python3" [("echo", Descriptor.meta [] [])] true true
        (ChildOutcome.ok "done" "") ⟨["other"], []⟩ "echo"
        Payload.emptyObj).spawn
        = some { exe := "python3",
                 script := joinPath SUBCOMMANDS_DIR ("echo" ++ ".py"),
                 argvPayload := dumps Payload.emptyObj, stdinData := none,
                 toolPathEnv := joinPath SUBCOMMAND_TOOLS_DIR "echo" } :=
  C7_no_sandbox_for_dependency_free "python3"
    [("echo", Descriptor.meta [] [])] true true (ChildOutcome.ok "done" "")
    ⟨["other"], []⟩ "echo" Payload.emptyObj [] (by decide)

/-- C9: when the run verb receives no payload argument the tool is invoked
with the empty JSON object, and when the argument neither parses as JSON
nor names an existing `.json` file the tool is invoked with the
`file_path` wrapper — the dispatch proceeds in both cases. -/
theorem C9_cli_input_fallback (sysExe : String)
    (registry : List (String × Descriptor)) (venvOk pipOk : Bool)
    (child : ChildOutcome) (isfile : String → Bool)
    (pa pf : String → Option String) (fs : Fs) (name a : String)
    (h1 : (name == "list") = false) (h2 : (name == "update") = false) :
    (managerMain sysExe registry venvOk pipOk child isfile pa pf fs
        ["manager.py", name]).run
      = some (run_subcommand sysExe registry venvOk pipOk child fs name
        Payload.emptyObj) ∧
    (pa a = none → (isfile a && strEndsWith (strToLower a) ".json") = false →
      (managerMain sysExe registry venvOk pipOk child isfile pa pf fs
          ["manager.py", name, a]).run
        = some (run_subcommand sysExe registry venvOk pipOk child fs name
          (Payload.filePathWrap a))) := by
  constructor
  · simp [managerMain, h1, h2, resolve_input]
  · intro hpa hj
    simp [managerMain, h1, h2, resolve_input, hpa, hj]

/-- Witness for C9: a concrete run verb without payload argument and one
with a non-JSON, non-file argument. -/
theorem C9_witness :
    (managerMain "python3" [] true true ChildOutcome.noExe (fun _ => false)
        (fun _ => none) (fun _ => none) ⟨[], []⟩ ["manager.py", "echo"]).run
      = some (run_subcommand "python3" [] true true ChildOutcome.noExe
        ⟨[], []⟩ "echo" Payload.emptyObj) ∧
    (managerMain "python3" [] true true ChildOutcome.noExe (fun _ => false)
        (fun _ => none) (fun _ => none) ⟨[], []⟩
        ["manager.py", "echo", "clip.mp4"]).run
      = some (run_subcommand "python3" [] true true ChildOutcome.noExe
        ⟨[], []⟩ "echo" (Payload.filePathWrap "clip.mp4")) := by
  obtain ⟨w1, w2⟩ := C9_cli_input_fallback "python3" [] true true
    ChildOutcome.noExe (fun _ => false) (fun _ => none) (fun _ => none)
    ⟨[], []⟩ "echo" "clip.mp4" (by decide) (by decide)
  exact ⟨w1, w2 rfl (by decide)⟩

/-- C1: the claim states that the dispatcher writes the serialized payload
to the child process standard input and closes it, never passing the
payload as a command-line argument.  Evaluating the code at the failing
input `python manager.py get_duration /tmp/a.mp4` shows the opposite: the
`subprocess.run` invocation carries the serialized payload
`{"file_path": "/tmp/a.mp4"}` as its third argv element and writes nothing
to the child standard input (the tools themselves read `sys.stdin`, so the
spec records the intended convention and manager.py contradicts it). -/
theorem C1_payload_passed_on_argv :
    ((managerMain "python3"
        [("get_duration", Descriptor.meta [] ["ffmpeg-python==0.2.0"])]
        true true (ChildOutcome.ok "" "") (fun _ => false) (fun _ => none)
        (fun _ => none) ⟨[], []⟩
        ["manager.py", "get_duration", "/tmp/a.mp4"]).run.bind
          (fun r => r.spawn))
      = some { exe := "subcommands_envs/get_duration/bin/python",
               script := "subcommands/get_duration.py",
               argvPayload := "\x7b\"file_path\": \"/tmp/a.mp4\"\x7d",
               stdinData := none,
               toolPathEnv := "subcommands_tools/get_duration" } := by
  decide

/-- C2 counterexample: a tool that exits 1 writing the error object to its
standard error does surface that message on the router's standard error
with empty standard output, but the router's process exit code is 0 —
`main` returns `None` on every path and never calls `sys.exit` — refuting
the claimed non-zero exit code. -/
theorem C2_counterexample :
    (managerMain "python3" [("t", Descriptor.meta [] [])] true true
        (ChildOutcome.fail ""
          "\x7b\"status\":\"error\",\"message\":\"boom\"\x7d")
        (fun _ => false) (fun _ => none) (fun _ => none) ⟨[], []⟩
        ["manager.py", "t"]).exitCode = 0 ∧
      (managerMain "python3" [("t", Descriptor.meta [] [])] true true
        (ChildOutcome.fail ""
          "\x7b\"status\":\"error\",\"message\":\"boom\"\x7d")
        (fun _ => false) (fun _ => none) (fun _ => none) ⟨[], []⟩
        ["manager.py", "t"]).stdoutData = "" ∧
      "\x7b\"status\":\"error\",\"message\":\"boom\"\x7d"
        ∈ (managerMain "python3" [("t", Descriptor.meta [] [])] true true
          (ChildOutcome.fail ""
            "\x7b\"status\":\"error\",\"message\":\"boom\"\x7d")
          (fun _ => false) (fun _ => none) (fun _ => none) ⟨[], []⟩
          ["manager.py", "t"]).stderrLines := by
  decide

/-- C2 amended: when the child process exits non-zero, the router's
standard output stays empty and the child's standard-error text surfaces
verbatim on the router's standard error, but the router's own process exit
code is 0 on every invocation (never non-zero). -/
theorem C2_amended_failure_relay (sysExe : String)
    (registry : List (String × Descriptor)) (venvOk pipOk : Bool)
    (out err : String) (isfile : String → Bool)
    (pa pf : String → Option String) (fs : Fs) (args : List String) :
    (managerMain sysExe registry venvOk pipOk (ChildOutcome.fail out err)
        isfile pa pf fs args).exitCode = 0 ∧
      ∀ r, (managerMain sysExe registry venvOk pipOk
          (ChildOutcome.fail out err) isfile pa pf fs args).run = some r →
        r.spawn.isSome = true →
        (managerMain sysExe registry venvOk pipOk
            (ChildOutcome.fail out err) isfile pa pf fs args).stdoutData
            = "" ∧
          err ∈ (managerMain sysExe registry venvOk pipOk
            (ChildOutcome.fail out err) isfile pa pf fs args).stderrLines := by
  refine ⟨managerMain_exitCode sysExe registry venvOk pipOk
    (ChildOutcome.fail out err) isfile pa pf fs args, ?_⟩
  intro r hr hsp
  obtain ⟨ho, he, name, payload, hrr⟩ := managerMain_run_char sysExe registry
    venvOk pipOk (ChildOutcome.fail out err) isfile pa pf fs args r hr
  subst hrr
  obtain ⟨pe, fs1, cE, iN, heq⟩ := run_subcommand_spawn_some sysExe registry
    venvOk pipOk (ChildOutcome.fail out err) fs name payload hsp
  rw [ho, he, heq]
  exact execSubcommand_fail_streams pe out err fs1 cE iN name payload

/-- Witness for the amended C2 at a concrete failing tool. -/
theorem C2_witness :
    (managerMain "python3" [("t", Descriptor.meta [] [])] true true
        (ChildOutcome.fail "" "boom") (fun _ => false) (fun _ => none)
        (fun _ => none) ⟨[], []⟩ ["manager.py", "t"]).exitCode = 0 ∧
      (managerMain "python3" [("t", Descriptor.meta [] [])] true true
          (ChildOutcome.fail "" "boom") (fun _ => false) (fun _ => none)
          (fun _ => none) ⟨[], []⟩ ["manager.py", "t"]).stdoutData = "" ∧
      "boom" ∈ (managerMain "python3" [("t", Descriptor.meta [] [])] true
        true (ChildOutcome.fail "" "boom") (fun _ => false) (fun _ => none)
        (fun _ => none) ⟨[], []⟩ ["manager.py", "t"]).stderrLines := by
  obtain ⟨h0, hrel⟩ := C2_amended_failure_relay "python3"
    [("t", Descriptor.meta [] [])] true true "" "boom" (fun _ => false)
    (fun _ => none) (fun _ => none) ⟨[], []⟩ ["manager.py", "t"]
  obtain ⟨h1, h2⟩ := hrel
    (run_subcommand "python3" [("t", Descriptor.meta [] [])] true true
      (ChildOutcome.fail "" "boom") ⟨[], []⟩ "t" Payload.emptyObj)
    (by decide) (by decide)
  exact ⟨h0, h1, h2⟩

/-- C5 counterexample: a tool that exits 0 writing one JSON document to its
standard output makes the router print that document through Python
`print`, which appends a newline — the router's standard output is the
document plus `"\n"`, not byte-identical to the document. -/
theorem C5_counterexample :
    (managerMain "python3" [("t", Descriptor.meta [] [])] true true
        (ChildOutcome.ok "\x7b\"status\":\"success\",\"value\":42\x7d" "")
        (fun _ => false) (fun _ => none) (fun _ => none) ⟨[], []⟩
        ["manager.py", "t"]).stdoutData
      = "\x7b\"status\":\"success\",\"value\":42\x7d\n" ∧
      ¬ (managerMain "python3" [("t", Descriptor.meta [] [])] true true
        (ChildOutcome.ok "\x7b\"status\":\"success\",\"value\":42\x7d" "")
        (fun _ => false) (fun _ => none) (fun _ => none) ⟨[], []⟩
        ["manager.py", "t"]).stdoutData
        = "\x7b\"status\":\"success\",\"value\":42\x7d" ∧
      (managerMain "python3" [("t", Descriptor.meta [] [])] true true
        (ChildOutcome.ok "\x7b\"status\":\"success\",\"value\":42\x7d" "")
        (fun _ => false) (fun _ => none) (fun _ => none) ⟨[], []⟩
        ["manager.py", "t"]).exitCode = 0 := by
  decide

/-- C5 amended: when the child exits 0 having written `out` to its standard
output, the router writes exactly `out` followed by one appended newline
(Python `print`) to its own standard output, and its exit code is 0. -/
theorem C5_amended_success_relay (sysExe : String)
    (registry : List (String × Descriptor)) (venvOk pipOk : Bool)
    (out err : String) (isfile : String → Bool)
    (pa pf : String → Option String) (fs : Fs) (args : List String) :
    (managerMain sysExe registry venvOk pipOk (ChildOutcome.ok out err)
        isfile pa pf fs args).exitCode = 0 ∧
      ∀ r, (managerMain sysExe registry venvOk pipOk
          (ChildOutcome.ok out err) isfile pa pf fs args).run = some r →
        r.spawn.isSome = true →
        (managerMain sysExe registry venvOk pipOk (ChildOutcome.ok out err)
          isfile pa pf fs args).stdoutData = out ++ "\n" := by
  refine ⟨managerMain_exitCode sysExe registry venvOk pipOk
    (ChildOutcome.ok out err) isfile pa pf fs args, ?_⟩
  intro r hr hsp
  obtain ⟨ho, _, name, payload, hrr⟩ := managerMain_run_char sysExe registry
    venvOk pipOk (ChildOutcome.ok out err) isfile pa pf fs args r hr
  subst hrr
  obtain ⟨pe, fs1, cE, iN, heq⟩ := run_subcommand_spawn_some sysExe registry
    venvOk pipOk (ChildOutcome.ok out err) fs name payload hsp
  rw [ho, heq]
  exact execSubcommand_ok_stdout pe out err fs1 cE iN name payload

/-- Witness for the amended C5 at a concrete succeeding tool. -/
theorem C5_witness :
    (managerMain "python3" [("t", Descriptor.meta [] [])] true true
        (ChildOutcome.ok "result" "") (fun _ => false) (fun _ => none)
        (fun _ => none) ⟨[], []⟩ ["manager.py", "t"]).exitCode = 0 ∧
      (managerMain "python3" [("t", Descriptor.meta [] [])] true true
        (ChildOutcome.ok "result" "") (fun _ => false) (fun _ => none)
        (fun _ => none) ⟨[], []⟩ ["manager.py", "t"]).stdoutData
        = "result" ++ "\n" := by
  obtain ⟨h0, hrel⟩ := C5_amended_success_relay "python3"
    [("t", Descriptor.meta [] [])] true true "result" "" (fun _ => false)
    (fun _ => none) (fun _ => none) ⟨[], []⟩ ["manager.py", "t"]
  exact ⟨h0, hrel
    (run_subcommand "python3" [("t", Descriptor.meta [] [])] true true
      (ChildOutcome.ok "result" "") ⟨[], []⟩ "t" Payload.emptyObj)
    (by decide) (by decide)⟩

theorem update_loop_attempts_mem (v : Bool)
    (reg : List (String × Descriptor)) (env : List String) (x : String)
    (hx : x ∈ (update_loop v reg env).2) :
    ∃ s r, (x, Descriptor.meta s r) ∈ reg := by
  induction reg generalizing env with
  | nil => simp [update_loop] at hx
  | cons p rest ih =>
    obtain ⟨n, d⟩ := p
    cases d with
    | loadError m =>
      simp only [update_loop] at hx
      obtain ⟨s, r, hm⟩ := ih env hx
      exact ⟨s, r, List.mem_cons_of_mem _ hm⟩
    | meta s0 req =>
      by_cases hreq : req.isEmpty = true
      · simp only [update_loop, hreq, if_true] at hx
        obtain ⟨s, r, hm⟩ := ih env hx
        exact ⟨s, r, List.mem_cons_of_mem _ hm⟩
      · simp only [update_loop, hreq, if_false] at hx
        rcases List.mem_cons.mp hx with rfl | hx2
        · exact ⟨s0, req, List.mem_cons_self _ _⟩
        · obtain ⟨s, r, hm⟩ := ih _ hx2
          exact ⟨s, r, List.mem_cons_of_mem _ hm⟩

theorem update_loop_env_mono (v : Bool) (reg : List (String × Descriptor))
    (env : List String) (d : String) (hd : d ∈ env) :
    d ∈ (update_loop v reg env).1 := by
  induction reg generalizing env with
  | nil => simpa [update_loop] using hd
  | cons p rest ih =>
    obtain ⟨n, dd⟩ := p
    cases dd with
    | loadError m =>
      simp only [update_loop]
      exact ih env hd
    | meta s req =>
      by_cases hreq : req.isEmpty = true
      · simp only [update_loop, hreq, if_true]
        exact ih env hd
      · simp only [update_loop, hreq, if_false]
        exact ih _ (create_environment_mono env n v d hd)

theorem assoc_nodup_eq (l : List (String × Descriptor))
    (h : (l.map Prod.fst).Nodup) (k : String) (a b : Descriptor)
    (ha : (k, a) ∈ l) (hb : (k, b) ∈ l) : a = b := by
  induction l with
  | nil => cases ha
  | cons p rest ih =>
    rw [List.map_cons, List.nodup_cons] at h
    rcases List.mem_cons.mp ha with rfl | ha2
    · rcases List.mem_cons.mp hb with hb1 | hb2
      · exact (((Prod.mk.injEq k b k a).mp hb1).2).symm
      · exact absurd (List.mem_map_of_mem Prod.fst hb2) (by simpa using h.1)
    · rcases List.mem_cons.mp hb with rfl | hb2
      · exact absurd (List.mem_map_of_mem Prod.fst ha2) (by simpa using h.1)
      · exact ih h.2 ha2 hb2

/-- C10: during the update verb a tool whose descriptor carries a load
error still counts among the current names, so its sandbox and storage
directories survive reclamation, and the provisioning loop never enters
the environment-creation branch for it (hence neither creation nor
installation is attempted). -/
theorem C10_update_preserves_broken (registry : List (String × Descriptor))
    (n m : String) (venvOk : Bool) (fs : Fs)
    (h0 : (registry.map Prod.fst).Nodup)
    (h1 : (n, Descriptor.loadError m) ∈ registry) :
    n ∈ registry.map Prod.fst ∧
      n ∉ (update_command registry venvOk fs).provisionAttempts ∧
      (n ∈ fs.envDirs → n ∈ (update_command registry venvOk fs).fs.envDirs) ∧
      (n ∈ fs.toolDirs →
        n ∈ (update_command registry venvOk fs).fs.toolDirs) := by
  have hmem : n ∈ registry.map Prod.fst := List.mem_map_of_mem Prod.fst h1
  have hcont : (registry.map Prod.fst).contains n = true := by
    simpa using hmem
  refine ⟨hmem, ?_, ?_, ?_⟩
  · intro hx
    simp only [update_command, cleanup_orphaned_files] at hx
    obtain ⟨s, r, hm⟩ := update_loop_attempts_mem venvOk registry _ n hx
    have heq := assoc_nodup_eq registry h0 n _ _ hm h1
    cases heq
  · intro hn
    simp only [update_command, cleanup_orphaned_files]
    apply update_loop_env_mono
    rw [cleanupDir_fst, List.mem_filter]
    exact ⟨hn, hcont⟩
  · intro hn
    simp only [update_command, cleanup_orphaned_files]
    rw [cleanupDir_fst, List.mem_filter]
    exact ⟨hn, hcont⟩

/-- Witness for C10: a registry with one healthy dependency-bearing tool
and one broken tool whose directories are present on disk. -/
theorem C10_witness :
    "bad" ∈ ([("good", Descriptor.meta [] ["pkg==1"]),
        ("bad", Descriptor.loadError "boom")].map Prod.fst) ∧
      "bad" ∉ (update_command [("good", Descriptor.meta [] ["pkg==1"]),
        ("bad", Descriptor.loadError "boom")] true
        ⟨["bad", "stale"], ["bad"]⟩).provisionAttempts ∧
      "bad" ∈ (update_command [("good", Descriptor.meta [] ["pkg==1"]),
        ("bad", Descriptor.loadError "boom")] true
        ⟨["bad", "stale"], ["bad"]⟩).fs.envDirs ∧
      "bad" ∈ (update_command [("good", Descriptor.meta [] ["pkg==1"]),
        ("bad", Descriptor.loadError "boom")] true
        ⟨["bad", "stale"], ["bad"]⟩).fs.toolDirs := by
  obtain ⟨w1, w2, w3, w4⟩ := C10_update_preserves_broken
    [("good", Descriptor.meta [] ["pkg==1"]),
      ("bad", Descriptor.loadError "boom")] "bad" "boom" true
    ⟨["bad", "stale"], ["bad"]⟩ (by decide) (by decide)
  exact ⟨w1, w2, w3 (by decide), w4 (by decide)⟩
